import Mathlib

/-!
Verification of the natural-language specification of `app.py`, a small
pandas/streamlit dashboard.  The Python source is shallowly embedded:
dataframes become `DataFrame` (a column-name list plus rows of cells),
regex-based string rewriting becomes structurally recursive functions on
`List Char`, and fallible operations return `Option`, with dedicated
result types recording which user-visible outcome a chart builder takes
(error message, warning, or a produced chart).  Python floats are
modelled by `ℚ`; `NaN` cells by `Value.na`.
-/

/-- Cell of a dataframe: a string, a number (Python float/int, modelled by
`ℚ`), or a missing value (`NaN`). -/
inductive Value
  | str (s : String)
  | num (q : ℚ)
  | na
deriving DecidableEq

/-- Python `str(v)`: the string form pandas `astype(str)` produces.  `NaN`
stringifies to `"nan"`.  (Numeric cells stringify to their decimal form;
the exact float formatting is irrelevant to the claims, which only apply
`astype(str)` to label columns, so `toString` on `ℚ` stands in for it.) -/
def valStr : Value → String
  | .str s => s
  | .num q => toString q
  | .na => "nan"

/-- A pandas dataframe: ordered column names and rows of cells, each row
index-aligned with `cols`. -/
structure DataFrame where
  cols : List String
  rows : List (List Value)
deriving DecidableEq

/-- Index of column `c`, as in Python `df.columns.get_loc` / `df[c]`
(`none` models a `KeyError`). -/
def colIdx (df : DataFrame) (c : String) : Option Nat :=
  df.cols.findIdx? (fun x => decide (x = c))

/-- Value of column `c` in row `r` of `df` (`df[c]` at that row). -/
def DataFrame.cell (df : DataFrame) (r : List Value) (c : String) : Option Value :=
  (colIdx df c).bind (fun i => r[i]?)

/-! ## Column Name Normalization — `clean_col_name` (app.py lines 29-34)

```python
def clean_col_name(name):
    name = name.strip()
    name = re.sub(r'\s*[:：]\s*', '_', name)
    name = re.sub(r'\s+', '_', name)
    name = re.sub(r'[¥%()]', '', name)
    return name
```
-/

/-- Whitespace characters recognised by Python `str.strip` and `\s`
(ASCII range; the data uses only these). -/
def isWsCh (c : Char) : Bool :=
  c = ' ' || c = '\t' || c = '\n' || c = '\r' || c = '\x0b' || c = '\x0c'

/-- Characters matched by the character class `[:：]` (ASCII and
full-width colon). -/
def isColonCh (c : Char) : Bool := c = ':' || c = '：'

/-- Characters removed by `re.sub(r'[¥%()]', '', name)`. -/
def isSymCh (c : Char) : Bool := c = '¥' || c = '%' || c = '(' || c = ')'

/-- Auxiliary for `dropWhile`-style removal used by `strip`. -/
def dropWsL (l : List Char) : List Char := l.dropWhile isWsCh

/-- Python `name.strip()`: remove leading and trailing whitespace. -/
def stripL (l : List Char) : List Char :=
  ((dropWsL l).reverse.dropWhile isWsCh).reverse

/-- Left-to-right scan implementing `re.sub(r'\s*[:：]\s*', '_', name)`.
`swallow = true` means the scanner sits right after a replaced match and
is consuming the match's trailing `\s*`; `pending` is a run of whitespace
read but not yet known to precede a colon (emitted verbatim if no colon
follows, absorbed into the match — i.e. dropped — if one does). -/
def colonAux : Bool → List Char → List Char → List Char
  | _, pending, [] => pending
  | b, pending, c :: cs =>
    if isColonCh c then '_' :: colonAux true [] cs
    else if isWsCh c then
      (if b then colonAux true pending cs else colonAux false (pending ++ [c]) cs)
    else (pending ++ [c]) ++ colonAux false [] cs

/-- `re.sub(r'\s*[:：]\s*', '_', name)`. -/
def colonSub (l : List Char) : List Char := colonAux false [] l

/-- Scan implementing `re.sub(r'\s+', '_', name)`: `inRun` records
whether the previous character was whitespace (already replaced). -/
def wsAux : Bool → List Char → List Char
  | _, [] => []
  | inRun, c :: cs =>
    if isWsCh c then
      (if inRun then wsAux true cs else '_' :: wsAux true cs)
    else c :: wsAux false cs

/-- `re.sub(r'\s+', '_', name)`. -/
def wsSub (l : List Char) : List Char := wsAux false l

/-- The whole `clean_col_name` pipeline on character lists. -/
def cleanPipe (l : List Char) : List Char :=
  (wsSub (colonSub (stripL l))).filter (fun c => !isSymCh c)

/-- `clean_col_name` (app.py lines 29-34). -/
def clean_col_name (s : String) : String := String.mk (cleanPipe s.toList)

/-! ## Numeric Conversion — `convert_to_numeric` (app.py lines 50-63)

```python
def convert_to_numeric(df):
    for col in df.columns:
        if any(x in col.lower() for x in ['share','rate','price','spending','nights','count']):
            df[col] = pd.to_numeric(
                df[col].astype(str).str.replace(',', '').str.replace('%', '').str.replace('nan', ''),
                errors='coerce').fillna(0)
    return df
```
-/

/-- Substring test: `needle` occurs inside `hay` (Python `x in s`). -/
def isSubL (needle : List Char) : List Char → Bool
  | [] => needle.isEmpty
  | c :: t => needle.isPrefixOf (c :: t) || isSubL needle t

/-- Python `s.lower()` on the characters of a string (ASCII data). -/
def lowerL (l : List Char) : List Char := l.map Char.toLower

/-- Does the lowercased column name `c` contain the (lowercase) token
`tok`?  (Python `tok in c.lower()`.) -/
def colHas (tok c : String) : Bool := isSubL tok.toList (lowerL c.toList)

/-- The fixed metric-kind token set of `convert_to_numeric`. -/
def metricTokens : List String := ["share", "rate", "price", "spending", "nights", "count"]

/-- `any(x in col.lower() for x in [...])`. -/
def isMetricCol (c : String) : Bool := metricTokens.any (fun t => colHas t c)

/-- `str.replace(',', '').str.replace('%', '')`: drop every comma and
percent sign. -/
def stripSep (l : List Char) : List Char :=
  l.filter (fun c => !(c = ',' || c = '%'))

/-- `str.replace('nan', '')`: remove every (non-overlapping, leftmost)
occurrence of the substring `"nan"`. -/
def removeNan : List Char → List Char
  | 'n' :: 'a' :: 'n' :: rest => removeNan rest
  | c :: cs => c :: removeNan cs
  | [] => []

/-- Digit run to a natural number. -/
def digitsToNat (l : List Char) : Nat :=
  l.foldl (fun a c => a * 10 + (c.toNat - 48)) 0

/-- Unsigned decimal parser: digits with an optional single decimal
point (the forms `pd.to_numeric` accepts on this data; exponent forms do
not occur in it). -/
def parseUnsigned (s : List Char) : Option ℚ :=
  let intPart := s.takeWhile Char.isDigit
  let rest := s.dropWhile Char.isDigit
  match rest with
  | [] => if intPart.isEmpty then none else some (digitsToNat intPart)
  | '.' :: frac =>
    if frac.all Char.isDigit && !(intPart.isEmpty && frac.isEmpty) then
      some ((digitsToNat intPart : ℚ) + (digitsToNat frac : ℚ) / 10 ^ frac.length)
    else none
  | _ => none

/-- `pd.to_numeric(s, errors='coerce')` on a single string: strip
surrounding whitespace, optional sign, decimal literal; `none` models the
coercion to `NaN` on parse failure. -/
def parseNum (s : List Char) : Option ℚ :=
  match (dropWsL s).reverse.dropWhile isWsCh |>.reverse with
  | '-' :: r => (parseUnsigned r).map (fun q => -q)
  | '+' :: r => parseUnsigned r
  | r => parseUnsigned r

/-- The full per-string coercion applied to a metric cell:
`replace(',','')`, `replace('%','')`, `replace('nan','')`, then
`to_numeric`. -/
def coerceStr (l : List Char) : Option ℚ := parseNum (removeNan (stripSep l))

/-- One metric cell through
`pd.to_numeric(astype(str)... , errors='coerce').fillna(0)`.
A numeric cell round-trips through `str` unchanged (Python float
formatting round-trips); `NaN` stringifies to `"nan"`, which the
`replace('nan','')` turns into `""`, an unparseable string, hence `0`. -/
def toNumericOrZero : Value → Value
  | .num q => .num q
  | .str s => .num ((coerceStr s.toList).getD 0)
  | .na => .num 0

/-- `convert_to_numeric` (app.py lines 50-63): coerce every cell of every
metric-token column, leave other columns untouched. -/
def convert_to_numeric (df : DataFrame) : DataFrame :=
  ⟨df.cols,
   df.rows.map (fun r =>
     List.zipWith (fun c v => if isMetricCol c then toNumericOrZero v else v) df.cols r)⟩

/-! ## Column lookup by substring tokens

`[c for c in df.columns if 'uk' in c.lower() and 'share' in c.lower()][0]`
(app.py lines 71-72, 118-119, 151-156): the first column, in column
order, whose lowercased name contains both tokens.  `none` means the
filtered list is empty and the Python `[0]` raises an `IndexError`. -/
def firstCol (cols : List String) (t1 t2 : String) : Option String :=
  (cols.filter (fun c => colHas t1 c && colHas t2 c)).head?

/-- First column containing `uk` and `share` (lines 71, 118). -/
def ukShareCol (cols : List String) : Option String := firstCol cols "uk" "share"

/-- First column containing `all` and `share` (lines 72, 119). -/
def allShareCol (cols : List String) : Option String := firstCol cols "all" "share"

/-! ## Derived Overall-Age rows (app.py lines 65-81)

```python
male_data = df_sum[df_sum['Category'] == 'male'].set_index('Item')
female_data = df_sum[df_sum['Category'] == 'female'].set_index('Item')
if not male_data.empty and not female_data.empty:
    uk_share_col = [...][0]; all_share_col = [...][0]
    age_items = male_data.index.intersection(female_data.index)
    overall_age = pd.DataFrame(index=age_items)
    overall_age['Category'] = 'Age (Overall)'
    overall_age['Item'] = age_items
    overall_age[uk_share_col] = (male_data[uk_share_col] + female_data[uk_share_col]) / 2
    overall_age[all_share_col] = (male_data[all_share_col] + female_data[all_share_col]) / 2
    df_sum = pd.concat([df_sum, overall_age.reset_index(drop=True)])
```
The index-aligned series arithmetic is embedded row-wise: for each item
in the intersection, the male and female rows are looked up by their
`Item` value and the two means computed.  (The CSV reading itself is
I/O and out of scope; everything from line 67 on is modelled.)
-/

/-- Rows of `df` whose `Category` cell equals the string `cat`. -/
def categoryRows (df : DataFrame) (cat : String) : List (List Value) :=
  df.rows.filter (fun r => decide (df.cell r "Category" = some (Value.str cat)))

/-- `df_sum[df_sum['Category'] == 'male']`. -/
def maleRows (df : DataFrame) : List (List Value) := categoryRows df "male"

/-- `df_sum[df_sum['Category'] == 'female']`. -/
def femaleRows (df : DataFrame) : List (List Value) := categoryRows df "female"

/-- The `Item` values of a list of rows (the index after
`set_index('Item')`). -/
def itemsOfRows (df : DataFrame) (rs : List (List Value)) : List Value :=
  rs.filterMap (fun r => df.cell r "Item")

/-- First-occurrence deduplication, as `pandas.unique` /
`Index.intersection` preserve first-seen order. -/
def uniqueFirst {α : Type} [DecidableEq α] : List α → List α
  | [] => []
  | a :: l => a :: (uniqueFirst l).filter (fun x => !decide (x = a))

/-- `male_data.index.intersection(female_data.index)`: the male items,
deduplicated in first-seen order, restricted to those also present among
the female items. -/
def ageItems (df : DataFrame) : List Value :=
  (uniqueFirst (itemsOfRows df (maleRows df))).filter
    (fun i => decide (i ∈ itemsOfRows df (femaleRows df)))

/-- Row of `rs` whose `Item` cell is `itm` (the `set_index('Item')`
alignment, read row-wise). -/
def rowForItem (df : DataFrame) (rs : List (List Value)) (itm : Value) : Option (List Value) :=
  rs.find? (fun r => decide (df.cell r "Item" = some itm))

/-- `(x + y) / 2` on two numeric cells; `none` models the `TypeError`
Python would raise on non-numeric operands. -/
def meanVal : Option Value → Option Value → Option Value
  | some (Value.num a), some (Value.num b) => some (Value.num ((a + b) / 2))
  | _, _ => none

/-- The derived `Age (Overall)` row for one item: category marker, the
item, and the two share means, in the column order `Category`, `Item`,
`uk_share_col`, `all_share_col` the Python code inserts them. -/
def derivedRowFor (df : DataFrame) (uk al : String) (itm : Value) : Option (List Value) :=
  match rowForItem df (maleRows df) itm, rowForItem df (femaleRows df) itm with
  | some mr, some fr =>
    match meanVal (df.cell mr uk) (df.cell fr uk), meanVal (df.cell mr al) (df.cell fr al) with
    | some u, some a => some [Value.str "Age (Overall)", itm, u, a]
    | _, _ => none
  | _, _ => none

/-- The block at app.py lines 70-81: `some []` when either subset is
empty (step skipped, nothing appended); `none` when a share column is
missing (the `[0]` lookup raises); otherwise the list of derived rows
appended to the summary table. -/
def overallAgeRows (df : DataFrame) : Option (List (List Value)) :=
  if (maleRows df).isEmpty || (femaleRows df).isEmpty then some []
  else
    match ukShareCol df.cols, allShareCol df.cols with
    | some uk, some al => some ((ageItems df).filterMap (derivedRowFor df uk al))
    | _, _ => none

/-! ## Paired bar chart — `create_bar_chart` (app.py lines 99-133) -/

/-- Distinct `Category` values of the summary table in first-occurrence
order (`df['Category'].unique()` keeps first-seen order). -/
def catsOf (df : DataFrame) : List Value :=
  df.rows.filterMap (fun r => df.cell r "Category")

/-- Category resolution (lines 103-110): exact membership test first,
else the first available category whose lowercased string form contains
the lowercased query. -/
def resolveCat (avail : List Value) (q : String) : Option Value :=
  if Value.str q ∈ avail then some (Value.str q)
  else avail.find? (fun c => isSubL (lowerL q.toList) (lowerL (valStr c).toList))

/-- Resolution against the distinct categories of `df`. -/
def bcResolve (df : DataFrame) (q : String) : Option Value :=
  resolveCat (uniqueFirst (catsOf df)) q

/-- `data = df[df['Category'] == target_cat].copy()` (line 116). -/
def bcData (df : DataFrame) (target : Value) : DataFrame :=
  ⟨df.cols, df.rows.filter (fun r => decide (df.cell r "Category" = some target))⟩

/-- `data.melt(id_vars=[idCol], value_vars=valueVars, var_name='Group',
value_name=valName)` (lines 121-122, 159-160).  pandas melt emits all
rows for the first value column, then all rows for the second. -/
def meltDF (d : DataFrame) (idCol : String) (valueVars : List String) (valName : String) : DataFrame :=
  ⟨[idCol, "Group", valName],
   valueVars.flatMap (fun v =>
     d.rows.filterMap (fun r =>
       (d.cell r idCol).bind (fun i => (d.cell r v).map (fun x => [i, Value.str v, x]))))⟩

/-- `.map({all_col: 'All', uk_col: 'UK'})` on one `Group` cell; any
other value would become `NaN` under pandas `map`.  If the two column
names coincide, the dict keeps the later binding `'UK'`, hence the `uk`
test first. -/
def groupMapVal (alC ukC : String) (v : Value) : Value :=
  if v = Value.str ukC then Value.str "UK"
  else if v = Value.str alC then Value.str "All" else Value.na

/-- `melted['Group'] = melted['Group'].map({all_col: 'All', uk_col: 'UK'})`
(lines 123, 161). -/
def mapGroupDF (d : DataFrame) (alC ukC : String) : DataFrame :=
  match colIdx d "Group" with
  | none => d
  | some g => ⟨d.cols, d.rows.map (fun r => r.set g (groupMapVal alC ukC ((r[g]?).getD Value.na)))⟩

/-- Observable outcome of `create_bar_chart`: a `KeyError` on a missing
`Category` column, the `st.error` message naming the query and the
available categories (line 113), the uncaught `IndexError` from
`[...][0]` when no uk/all share column exists (lines 118-119), or the
long-form table handed to `alt.Chart` (line 125). -/
inductive BCOut
  | errKey
  | errNoCategory (q : String) (available : List Value)
  | errIndex
  | chart (d : DataFrame)
deriving DecidableEq

/-- `create_bar_chart` (app.py lines 99-133), as the function from the
input table and category query to its observable outcome. -/
def create_bar_chart (df : DataFrame) (q : String) : BCOut :=
  match colIdx df "Category" with
  | none => .errKey
  | some _ =>
    match bcResolve df q with
    | none => .errNoCategory q (uniqueFirst (catsOf df))
    | some target =>
      let data := bcData df target
      match ukShareCol df.cols, allShareCol df.cols with
      | some uk, some al => .chart (mapGroupDF (meltDF data "Item" [al, uk] "Share") al uk)
      | _, _ => .errIndex

/-! ## Keyword-filtered subset chart — `create_subset_chart`
(app.py lines 135-171) -/

/-- Row filter of line 141-142: `pattern = '|'.join(items_list)` and
`df[item_col].str.contains(pattern, case=False, regex=True)`.  The
keywords used by the app are literal words, so the regex alternation is
substring-OR; joining the empty keyword list yields the empty pattern,
and an empty regex pattern matches (at position 0 of) every string. -/
def kwMatch (kws : List String) (s : String) : Bool :=
  if kws.isEmpty then true
  else kws.any (fun k => isSubL (lowerL k.toList) (lowerL s.toList))

/-- `data = df[mask]` for the keyword mask over the item column. -/
def scFiltered (df : DataFrame) (kws : List String) (ic : String) : List (List Value) :=
  df.rows.filter (fun r => kwMatch kws (valStr ((df.cell r ic).getD Value.na)))

/-- Observable outcome of `create_subset_chart`: the silent `return`
when no item column exists (line 137), the `st.warning` notice for an
empty filtered result (lines 145-147), the uncaught `IndexError` from
the metric-column `[...][0]` (lines 151-156), or the produced long-form
table (line 163). -/
inductive SCOut
  | noItemCol
  | noRows
  | errIndex
  | chart (d : DataFrame)
deriving DecidableEq

/-- `create_subset_chart` (app.py lines 135-171). -/
def create_subset_chart (df : DataFrame) (kws : List String) (metric : String) : SCOut :=
  match df.cols.find? (fun c => colHas "item" c) with
  | none => .noItemCol
  | some ic =>
    let rows := scFiltered df kws ic
    if rows.isEmpty then .noRows
    else
      match (if metric = "Rate" then firstCol df.cols "uk" "rate" else firstCol df.cols "uk" "price"),
            (if metric = "Rate" then firstCol df.cols "all" "rate" else firstCol df.cols "all" "price") with
      | some uk, some al => .chart (mapGroupDF (meltDF ⟨df.cols, rows⟩ ic [al, uk] "Value") al uk)
      | _, _ => .errIndex

/-! ## Object-store versions of the chart builders

For the frame/mutation claim the builders are re-expressed over an
explicit object store: every dataframe the Python code allocates
(`df[...].copy()`, `melt`) gets a fresh store slot, and the one in-place
write (`melted['Group'] = ...`) is a `set` on the slot holding the
melted frame.  The input table's slot is never written. -/

/-- The heap of dataframe objects; a handle is an index. -/
abbrev Store := List DataFrame

/-- `create_bar_chart` with its allocations and its single in-place
write made explicit.  A dangling handle returns the store unchanged
(unreachable in the app, which always passes a live table). -/
def create_bar_chart_st (st : Store) (i : Nat) (q : String) : Store × BCOut :=
  match (st : List DataFrame)[i]? with
  | none => (st, .errKey)
  | some df =>
    match colIdx df "Category" with
    | none => (st, .errKey)
    | some _ =>
      match bcResolve df q with
      | none => (st, .errNoCategory q (uniqueFirst (catsOf df)))
      | some target =>
        match ukShareCol df.cols, allShareCol df.cols with
        | some uk, some al =>
          let data := bcData df target
          let st1 := st ++ [data]
          let melted := meltDF data "Item" [al, uk] "Share"
          let st2 := st1 ++ [melted]
          let final := mapGroupDF melted al uk
          let st3 := st2.set (st.length + 1) final
          (st3, .chart final)
        | _, _ => (st, .errIndex)

/-- `create_subset_chart` over the explicit object store. -/
def create_subset_chart_st (st : Store) (i : Nat) (kws : List String) (metric : String) :
    Store × SCOut :=
  match (st : List DataFrame)[i]? with
  | none => (st, .noItemCol)
  | some df =>
    match df.cols.find? (fun c => colHas "item" c) with
    | none => (st, .noItemCol)
    | some ic =>
      let rows := scFiltered df kws ic
      if rows.isEmpty then (st, .noRows)
      else
        match (if metric = "Rate" then firstCol df.cols "uk" "rate" else firstCol df.cols "uk" "price"),
              (if metric = "Rate" then firstCol df.cols "all" "rate" else firstCol df.cols "all" "price") with
        | some uk, some al =>
          let data : DataFrame := ⟨df.cols, rows⟩
          let st1 := st ++ [data]
          let melted := meltDF data ic [al, uk] "Value"
          let st2 := st1 ++ [melted]
          let final := mapGroupDF melted al uk
          let st3 := st2.set (st.length + 1) final
          (st3, .chart final)
        | _, _ => (st, .errIndex)

/-! ## Concrete tables used by the end-to-end scenarios and witnesses -/

/-- Summary table of end-to-end scenario 1: two `Port of Entry` rows with
cleaned share columns. -/
def dfPort : DataFrame :=
  ⟨["Category", "Item", "all_Share_", "uk_Share_"],
   [[Value.str "Port of Entry", Value.str "Haneda", Value.num 40, Value.num 60],
    [Value.str "Port of Entry", Value.str "Narita", Value.num 60, Value.num 40]]⟩

/-- Summary table with a resolvable category but no column containing
both `uk` and `share` (nor `all` and `share`). -/
def dfNoShare : DataFrame :=
  ⟨["Category", "Item"], [[Value.str "X", Value.str "A"]]⟩

/-- Summary table whose only category is `Main Purpose` (end-to-end
scenario 4). -/
def dfPurpose : DataFrame :=
  ⟨["Category", "Item", "all_Share_", "uk_Share_"],
   [[Value.str "Main Purpose", Value.str "x", Value.num 1, Value.num 2]]⟩

/-- Cleaned summary table of end-to-end scenario 5: one male and one
female row for item `20s`. -/
def dfAge : DataFrame :=
  ⟨["Category", "Item", "uk_share", "all_share"],
   [[Value.str "male", Value.str "20s", Value.num 10, Value.num 20],
    [Value.str "female", Value.str "20s", Value.num 30, Value.num 40]]⟩

/-- Expenditure table with one row whose item matches no keyword
`"zzz"`. -/
def dfExp8 : DataFrame :=
  ⟨["Item", "uk_rate", "all_rate"], [[Value.str "Food", Value.num 1, Value.num 2]]⟩

/-- Expenditure table with one row, used with the empty keyword list. -/
def dfExp10 : DataFrame :=
  ⟨["Item", "uk_rate", "all_rate"], [[Value.str "Food", Value.num 3, Value.num 4]]⟩

/-- Expenditure table with an item column but zero rows. -/
def dfEmptyExp : DataFrame := ⟨["Item"], []⟩

/-- Two-column table with one metric column, for the numeric-conversion
witness. -/
def dfFive : DataFrame :=
  ⟨["Item", "uk_Share_"], [[Value.str "- a", Value.str "1,5%"]]⟩

/-- Summary table placed in a one-slot store for the mutation witness. -/
def dfSt : DataFrame :=
  ⟨["Category", "Item", "all_Share_", "uk_Share_"],
   [[Value.str "companion", Value.str "Alone", Value.num 50, Value.num 50]]⟩

/-! ## Helper lemmas -/

/-- Membership is invariant under first-occurrence deduplication. -/
theorem mem_uniqueFirst {α : Type} [DecidableEq α] {a : α} :
    ∀ {l : List α}, a ∈ uniqueFirst l ↔ a ∈ l := by
  intro l
  induction l with
  | nil => simp [uniqueFirst]
  | cons b bs ih =>
    by_cases hab : a = b
    · simp [uniqueFirst, hab]
    · simp [uniqueFirst, hab, List.mem_filter, ih]

/-- Removing the occurrences of an element that fails the predicate does
not change `find?`. -/
theorem find?_filter_ne {α : Type} [DecidableEq α] (p : α → Bool) (a : α) (hp : p a = false) :
    ∀ l : List α, (l.filter (fun x => !decide (x = a))).find? p = l.find? p := by
  intro l
  induction l with
  | nil => rfl
  | cons b bs ih =>
    by_cases hb : b = a
    · subst hb
      rw [List.filter_cons_of_neg (by simp), List.find?_cons_of_neg _ (by simp [hp]), ih]
    · rw [List.filter_cons_of_pos (by simp [hb])]
      by_cases hpb : p b = true
      · rw [List.find?_cons_of_pos _ hpb, List.find?_cons_of_pos _ hpb]
      · rw [List.find?_cons_of_neg _ hpb, List.find?_cons_of_neg _ hpb, ih]

/-- `find?` is invariant under first-occurrence deduplication. -/
theorem find?_uniqueFirst {α : Type} [DecidableEq α] (p : α → Bool) :
    ∀ l : List α, (uniqueFirst l).find? p = l.find? p := by
  intro l
  induction l with
  | nil => rfl
  | cons b bs ih =>
    by_cases hpb : p b = true
    · rw [uniqueFirst, List.find?_cons_of_pos _ hpb, List.find?_cons_of_pos _ hpb]
    · rw [uniqueFirst, List.find?_cons_of_neg _ hpb, List.find?_cons_of_neg _ hpb,
        find?_filter_ne p b (by simpa using hpb), ih]

/-- The output of the whitespace substitution contains no whitespace. -/
theorem wsAux_not_ws : ∀ (l : List Char) (b : Bool), ∀ c ∈ wsAux b l, isWsCh c = false := by
  intro l
  induction l with
  | nil => intro b c hc; simp [wsAux] at hc
  | cons d ds ih =>
    intro b c hc
    by_cases hd : isWsCh d
    · rw [wsAux, if_pos hd] at hc
      cases b with
      | true => exact ih true c hc
      | false =>
        rcases List.mem_cons.mp hc with h | h
        · subst h; rfl
        · exact ih true c h
    · rw [wsAux, if_neg hd] at hc
      rcases List.mem_cons.mp hc with h | h
      · subst h; simpa using hd
      · exact ih false c h

/-- Every character emitted by the whitespace substitution is either the
replacement underscore or a character of the input. -/
theorem wsAux_mem : ∀ (l : List Char) (b : Bool), ∀ c ∈ wsAux b l, c = '_' ∨ c ∈ l := by
  intro l
  induction l with
  | nil => intro b c hc; simp [wsAux] at hc
  | cons d ds ih =>
    intro b c hc
    by_cases hd : isWsCh d
    · rw [wsAux, if_pos hd] at hc
      cases b with
      | true =>
        rcases ih true c hc with h | h
        · exact Or.inl h
        · exact Or.inr (List.mem_cons_of_mem d h)
      | false =>
        rcases List.mem_cons.mp hc with h | h
        · exact Or.inl h
        · rcases ih true c h with h2 | h2
          · exact Or.inl h2
          · exact Or.inr (List.mem_cons_of_mem d h2)
    · rw [wsAux, if_neg hd] at hc
      rcases List.mem_cons.mp hc with h | h
      · exact Or.inr (h ▸ List.mem_cons_self d ds)
      · rcases ih false c h with h2 | h2
        · exact Or.inl h2
        · exact Or.inr (List.mem_cons_of_mem d h2)

/-- The output of the colon substitution contains no colon, provided the
pending whitespace run contains none. -/
theorem colonAux_not_colon : ∀ (l : List Char) (b : Bool) (p : List Char),
    (∀ x ∈ p, isColonCh x = false) → ∀ x ∈ colonAux b p l, isColonCh x = false := by
  intro l
  induction l with
  | nil => intro b p hp x hx; rw [colonAux] at hx; exact hp x hx
  | cons d ds ih =>
    intro b p hp x hx
    by_cases hcd : isColonCh d
    · rw [colonAux, if_pos hcd] at hx
      rcases List.mem_cons.mp hx with h | h
      · subst h; rfl
      · exact ih true [] (by simp) x h
    · by_cases hwd : isWsCh d
      · rw [colonAux, if_neg hcd, if_pos hwd] at hx
        cases b with
        | true => exact ih true p hp x hx
        | false =>
          refine ih false (p ++ [d]) ?_ x hx
          intro y hy
          rcases List.mem_append.mp hy with h | h
          · exact hp y h
          · simp only [List.mem_singleton] at h; subst h; simpa using hcd
      · rw [colonAux, if_neg hcd, if_neg hwd] at hx
        rcases List.mem_append.mp hx with h | h
        · rcases List.mem_append.mp h with h2 | h2
          · exact hp x h2
          · simp only [List.mem_singleton] at h2; subst h2; simpa using hcd
        · exact ih false [] (by simp) x h

/-- `dropWhile` is the identity when no element satisfies the
predicate. -/
theorem dropWhile_eq_self_of {q : Char → Bool} :
    ∀ {l : List Char}, (∀ c ∈ l, q c = false) → l.dropWhile q = l := by
  intro l h
  cases l with
  | nil => rfl
  | cons c cs => rw [List.dropWhile_cons, if_neg (by simp [h c (List.mem_cons_self c cs)])]

/-- `strip` is the identity on a whitespace-free string. -/
theorem stripL_eq_self {l : List Char} (h : ∀ c ∈ l, isWsCh c = false) : stripL l = l := by
  rw [stripL, dropWsL, dropWhile_eq_self_of h,
    dropWhile_eq_self_of (fun c hc => h c (List.mem_reverse.mp hc)), List.reverse_reverse]

/-- The colon substitution is the identity on a colon-free,
whitespace-free string. -/
theorem colonAux_id : ∀ l : List Char, (∀ c ∈ l, isColonCh c = false) →
    (∀ c ∈ l, isWsCh c = false) → colonAux false [] l = l := by
  intro l
  induction l with
  | nil => intro _ _; rfl
  | cons d ds ih =>
    intro h1 h2
    rw [colonAux, if_neg (by simp [h1 d (List.mem_cons_self d ds)]),
      if_neg (by simp [h2 d (List.mem_cons_self d ds)])]
    simp only [List.nil_append, List.singleton_append, List.cons.injEq, true_and]
    exact ih (fun c hc => h1 c (List.mem_cons_of_mem d hc))
      (fun c hc => h2 c (List.mem_cons_of_mem d hc))

/-- The whitespace substitution is the identity on a whitespace-free
string. -/
theorem wsAux_id : ∀ l : List Char, (∀ c ∈ l, isWsCh c = false) → ∀ b, wsAux b l = l := by
  intro l
  induction l with
  | nil => intro _ _; rfl
  | cons d ds ih =>
    intro h b
    rw [wsAux, if_neg (by simp [h d (List.mem_cons_self d ds)])]
    exact congrArg (d :: ·) (ih (fun c hc => h c (List.mem_cons_of_mem d hc)) false)

/-- The normalizer's output contains no whitespace. -/
theorem cleanPipe_not_ws {l : List Char} : ∀ c ∈ cleanPipe l, isWsCh c = false := by
  intro c hc
  exact wsAux_not_ws _ false c (List.mem_filter.mp hc).1

/-- The normalizer's output contains no colon. -/
theorem cleanPipe_not_colon {l : List Char} : ∀ c ∈ cleanPipe l, isColonCh c = false := by
  intro c hc
  rcases wsAux_mem _ false c (List.mem_filter.mp hc).1 with h | h
  · subst h; rfl
  · exact colonAux_not_colon _ false [] (by simp) c h

/-- The normalizer's output contains none of the stripped symbols. -/
theorem cleanPipe_not_sym {l : List Char} : ∀ c ∈ cleanPipe l, isSymCh c = false := by
  intro c hc
  simpa using (List.mem_filter.mp hc).2

/-- The normalization pipeline is idempotent on character lists. -/
theorem cleanPipe_idem (l : List Char) : cleanPipe (cleanPipe l) = cleanPipe l := by
  have hws : ∀ c ∈ cleanPipe l, isWsCh c = false := cleanPipe_not_ws
  have hcol : ∀ c ∈ cleanPipe l, isColonCh c = false := cleanPipe_not_colon
  have hsym : ∀ c ∈ cleanPipe l, isSymCh c = false := cleanPipe_not_sym
  conv_lhs => rw [cleanPipe]
  rw [stripL_eq_self hws,
    show colonSub (cleanPipe l) = cleanPipe l from colonAux_id _ hcol hws,
    show wsSub (cleanPipe l) = cleanPipe l from wsAux_id _ hws false,
    List.filter_eq_self.mpr (fun c hc => by simp [hsym c hc])]

/-! ## Claim theorems -/

/-- C1: the claim asserts that when no column contains both `uk` and
`share` (or both `all` and `share`), `create_bar_chart` fails with a
clear missing-required-column condition.  The code instead reaches the
bare `[...][0]` lookup, which raises an uncaught `IndexError`: on a
table with a resolvable category but no share columns the outcome is
`errIndex`, the unrelated lookup error. -/
theorem claim_C1_missing_share_column_is_index_error :
    create_bar_chart dfNoShare "X" = BCOut.errIndex := by decide

/-- C2 counterexample: `clean_col_name` does not map `"all:Share (%)"`
to `"all_Share"` — the whitespace before `(%)` becomes an underscore
that survives the symbol stripping. -/
theorem claim_C2_counterexample : clean_col_name "all:Share (%)" ≠ "all_Share" := by decide

/-- C2 amended: `clean_col_name "all:Share (%)"` equals `"all_Share_"`,
with a trailing underscore. -/
theorem claim_C2_amended : clean_col_name "all:Share (%)" = "all_Share_" := by decide

/-- C3: for every item present in both the male and the female subset
(the rows found by `rowForItem`), the derived `Age (Overall)` row holds
the unweighted arithmetic mean of the male and female values in the uk
share column and in the all share column, and that row is among the rows
the derived-metric step appends. -/
theorem claim_C3_overall_age_is_mean (df : DataFrame) (uk al : String) (itm : Value)
    (mr fr : List Value) (mu fu ma fa : ℚ)
    (hmr : rowForItem df (maleRows df) itm = some mr)
    (hfr : rowForItem df (femaleRows df) itm = some fr)
    (hmu : df.cell mr uk = some (Value.num mu)) (hfu : df.cell fr uk = some (Value.num fu))
    (hma : df.cell mr al = some (Value.num ma)) (hfa : df.cell fr al = some (Value.num fa)) :
    derivedRowFor df uk al itm =
      some [Value.str "Age (Overall)", itm, Value.num ((mu + fu) / 2), Value.num ((ma + fa) / 2)] ∧
    ∀ rs, overallAgeRows df = some rs → ukShareCol df.cols = some uk →
      allShareCol df.cols = some al →
      [Value.str "Age (Overall)", itm, Value.num ((mu + fu) / 2), Value.num ((ma + fa) / 2)] ∈ rs := by
  have h1 : derivedRowFor df uk al itm =
      some [Value.str "Age (Overall)", itm, Value.num ((mu + fu) / 2),
        Value.num ((ma + fa) / 2)] := by
    rw [derivedRowFor, hmr, hfr]
    simp only [hmu, hfu, hma, hfa, meanVal]
  refine ⟨h1, ?_⟩
  intro rs hrs huk hal
  have hmr2 : List.find? (fun r => decide (df.cell r "Item" = some itm)) (maleRows df) =
      some mr := hmr
  have hfr2 : List.find? (fun r => decide (df.cell r "Item" = some itm)) (femaleRows df) =
      some fr := hfr
  have hmrm : mr ∈ maleRows df := List.mem_of_find?_eq_some hmr2
  have hfrm : fr ∈ femaleRows df := List.mem_of_find?_eq_some hfr2
  have hmitem : df.cell mr "Item" = some itm := by simpa using List.find?_some hmr2
  have hfitem : df.cell fr "Item" = some itm := by simpa using List.find?_some hfr2
  have hne1 : (maleRows df).isEmpty = false :=
    List.isEmpty_eq_false.mpr (List.ne_nil_of_mem hmrm)
  have hne2 : (femaleRows df).isEmpty = false :=
    List.isEmpty_eq_false.mpr (List.ne_nil_of_mem hfrm)
  have hrs2 : rs = (ageItems df).filterMap (derivedRowFor df uk al) := by
    rw [overallAgeRows, hne1, hne2, huk, hal] at hrs
    simp only [Bool.or_self, Bool.false_eq_true, if_false, Option.some.injEq] at hrs
    exact hrs.symm
  rw [hrs2]
  refine List.mem_filterMap.mpr ⟨itm, ?_, h1⟩
  refine List.mem_filter.mpr ⟨?_, ?_⟩
  · exact mem_uniqueFirst.mpr (List.mem_filterMap.mpr ⟨mr, hmrm, hmitem⟩)
  · exact decide_eq_true (List.mem_filterMap.mpr ⟨fr, hfrm, hfitem⟩)

/-- C3 witness: end-to-end scenario 5 — male row (`20s`, uk 10, all 20)
and female row (`20s`, uk 30, all 40) yield the derived row (`20s`,
uk 20, all 30). -/
theorem claim_C3_witness :
    derivedRowFor dfAge "uk_share" "all_share" (Value.str "20s") =
      some [Value.str "Age (Overall)", Value.str "20s", Value.num 20, Value.num 30] := by
  have h := (claim_C3_overall_age_is_mean dfAge "uk_share" "all_share" (Value.str "20s")
    [Value.str "male", Value.str "20s", Value.num 10, Value.num 20]
    [Value.str "female", Value.str "20s", Value.num 30, Value.num 40]
    10 30 20 40 (by decide) (by decide) (by decide) (by decide) (by decide) (by decide)).1
  have e1 : ((10 : ℚ) + 30) / 2 = 20 := by norm_num
  have e2 : ((20 : ℚ) + 40) / 2 = 30 := by norm_num
  rw [h, e1, e2]

/-- C4: category resolution — an exact match among the distinct category
values always wins; otherwise the first category in table order whose
lowercased form contains the lowercased query is chosen; and when
resolution fails, `create_bar_chart` reports the query together with the
full set of available categories and produces no chart. -/
theorem claim_C4_category_resolution (df : DataFrame) (q : String) :
    (Value.str q ∈ catsOf df → bcResolve df q = some (Value.str q)) ∧
    (Value.str q ∉ catsOf df →
      bcResolve df q = (catsOf df).find?
        (fun c => isSubL (lowerL q.toList) (lowerL (valStr c).toList))) ∧
    ((colIdx df "Category").isSome = true → bcResolve df q = none →
      create_bar_chart df q = BCOut.errNoCategory q (uniqueFirst (catsOf df))) := by
  refine ⟨?_, ?_, ?_⟩
  · intro h
    rw [bcResolve, resolveCat, if_pos (mem_uniqueFirst.mpr h)]
  · intro h
    rw [bcResolve, resolveCat, if_neg (fun hm => h (mem_uniqueFirst.mp hm)),
      find?_uniqueFirst]
  · intro h1 h2
    obtain ⟨i, hi⟩ := Option.isSome_iff_exists.mp h1
    rw [create_bar_chart, hi, h2]

/-- C4 witness: end-to-end scenario 4 — requesting the nonexistent
category `"nonexistent"` fails, reporting the full available-category
set. -/
theorem claim_C4_witness :
    create_bar_chart dfPurpose "nonexistent" =
      BCOut.errNoCategory "nonexistent" (uniqueFirst (catsOf dfPurpose)) :=
  (claim_C4_category_resolution dfPurpose "nonexistent").2.2 (by decide) (by decide)

/-- C5: after `convert_to_numeric`, every cell of a column whose name
contains a metric-kind token is numeric; columns matching no token are
untouched; and a string that fails numeric parsing (after comma, percent
and `nan` removal) becomes zero. -/
theorem claim_C5_metric_columns_numeric (df : DataFrame) (j : Nat) (c : String)
    (hc : df.cols[j]? = some c)
    (hw : ∀ r ∈ df.rows, r.length = df.cols.length) :
    (isMetricCol c = true →
      ∀ r ∈ (convert_to_numeric df).rows, ∃ qv : ℚ, r[j]? = some (Value.num qv)) ∧
    (isMetricCol c = false →
      (convert_to_numeric df).rows.map (fun r => r[j]?) = df.rows.map (fun r => r[j]?)) ∧
    (∀ s : String, coerceStr s.toList = none → toNumericOrZero (Value.str s) = Value.num 0) := by
  have hj : j < df.cols.length := by
    rcases List.getElem?_eq_some.mp hc with ⟨h, _⟩
    exact h
  refine ⟨?_, ?_, ?_⟩
  · intro hm r hr
    rw [convert_to_numeric] at hr
    simp only [List.mem_map] at hr
    obtain ⟨r0, hr0, rfl⟩ := hr
    have hrj : j < r0.length := by rw [hw r0 hr0]; exact hj
    have hv : r0[j]? = some r0[j] := List.getElem?_eq_getElem hrj
    rw [List.getElem?_zipWith, hc, hv]
    simp only [hm, if_true]
    cases r0[j] with
    | str s => exact ⟨_, rfl⟩
    | num qv => exact ⟨qv, rfl⟩
    | na => exact ⟨0, rfl⟩
  · intro hm
    rw [convert_to_numeric]
    simp only
    rw [List.map_map]
    apply List.map_congr_left
    intro r0 hr0
    simp only [Function.comp_apply]
    rw [List.getElem?_zipWith, hc]
    cases hv : r0[j]? with
    | none => rfl
    | some v => simp [hm]
  · intro s h
    rw [toNumericOrZero, h]
    rfl

/-- C5 witness: the unparseable string `"abc"` becomes zero, via the
theorem applied to the concrete table `dfFive` at its metric column. -/
theorem claim_C5_witness : toNumericOrZero (Value.str "abc") = Value.num 0 :=
  (claim_C5_metric_columns_numeric dfFive 1 "uk_Share_" (by decide) (by decide)).2.2
    "abc" (by decide)

/-- C6: end-to-end scenario 1 — resolving `Port of Entry` on the
two-row summary table and building the paired bar chart yields exactly
the four long-form rows (Haneda, All, 40), (Narita, All, 60),
(Haneda, UK, 60), (Narita, UK, 40). -/
theorem claim_C6_port_of_entry_melt :
    create_bar_chart dfPort "Port of Entry" =
      BCOut.chart ⟨["Item", "Group", "Share"],
        [[Value.str "Haneda", Value.str "All", Value.num 40],
         [Value.str "Narita", Value.str "All", Value.num 60],
         [Value.str "Haneda", Value.str "UK", Value.num 60],
         [Value.str "Narita", Value.str "UK", Value.num 40]]⟩ := by decide

/-- C7: the column-name normalizer is idempotent. -/
theorem claim_C7_clean_col_name_idempotent (s : String) :
    clean_col_name (clean_col_name s) = clean_col_name s := by
  show String.mk (cleanPipe (String.mk (cleanPipe s.toList)).toList) =
    String.mk (cleanPipe s.toList)
  rw [show (String.mk (cleanPipe s.toList)).toList = cleanPipe s.toList from rfl,
    cleanPipe_idem]

/-- C8: with a non-empty keyword list, when the case-insensitive filter
selects zero rows, `create_subset_chart` short-circuits with the
no-matching-rows notice — for every table, including ones without the
metric columns the later steps would need. -/
theorem claim_C8_empty_filter_short_circuits (df : DataFrame) (kws : List String)
    (metric ic : String) (hk : kws ≠ [])
    (hic : df.cols.find? (fun c => colHas "item" c) = some ic)
    (hf : scFiltered df kws ic = []) :
    create_subset_chart df kws metric = SCOut.noRows := by
  rw [create_subset_chart, hic]
  simp only [hf, List.isEmpty_nil, if_true]

/-- C8 witness: the keyword `"zzz"` matches no row of `dfExp8`, so the
builder reports no matching rows. -/
theorem claim_C8_witness : create_subset_chart dfExp8 ["zzz"] "Rate" = SCOut.noRows :=
  claim_C8_empty_filter_short_circuits dfExp8 ["zzz"] "Rate" "Item"
    (by decide) (by decide) (by decide)

/-- C10 counterexample: on an expenditure table with an item column but
zero rows, the empty keyword list still leads into the no-matching-rows
branch (the filter selects the entire — empty — table), so the branch is
not "never taken". -/
theorem claim_C10_counterexample :
    create_subset_chart dfEmptyExp [] "Rate" = SCOut.noRows := by decide

/-- C10 amended: with an empty keyword list the joined regex pattern is
empty and matches every row, so the filter selects the entire table;
whenever the table has at least one row, the no-matching-rows branch is
not taken. -/
theorem claim_C10_empty_keywords_select_all (df : DataFrame) (metric ic : String)
    (hic : df.cols.find? (fun c => colHas "item" c) = some ic) :
    scFiltered df [] ic = df.rows ∧
    (df.rows ≠ [] → create_subset_chart df [] metric ≠ SCOut.noRows) := by
  have hall : scFiltered df [] ic = df.rows :=
    List.filter_eq_self.mpr (fun r _ => rfl)
  refine ⟨hall, ?_⟩
  intro hne
  have hemp : (scFiltered df [] ic).isEmpty = false := by
    rw [hall]; exact List.isEmpty_eq_false.mpr hne
  rw [create_subset_chart, hic]
  simp only [hemp, Bool.false_eq_true, if_false]
  cases h1 : (if metric = "Rate" then firstCol df.cols "uk" "rate"
      else firstCol df.cols "uk" "price") with
  | none => simp
  | some uk =>
    cases h2 : (if metric = "Rate" then firstCol df.cols "all" "rate"
        else firstCol df.cols "all" "price") with
    | none => simp
    | some al => simp

/-- C10 witness: on the one-row table `dfExp10` with an empty keyword
list, the no-matching-rows branch is not taken. -/
theorem claim_C10_witness : create_subset_chart dfExp10 [] "Rate" ≠ SCOut.noRows :=
  (claim_C10_empty_keywords_select_all dfExp10 "Rate" "Item" (by decide)).2 (by decide)

/-- C9: neither chart builder writes to the store slot of its input
table — every dataframe the builders allocate goes to a fresh slot, and
the single in-place `Group` write targets the freshly allocated melted
frame, so the input slot reads back unchanged. -/
theorem claim_C9_no_input_mutation (st : Store) (i : Nat) (q : String)
    (kws : List String) (metric : String) (h : i < st.length) :
    ((create_bar_chart_st st i q).1)[i]? = st[i]? ∧
    ((create_subset_chart_st st i kws metric).1)[i]? = st[i]? := by
  constructor
  · cases hdf : (st : List DataFrame)[i]? with
    | none => simp only [create_bar_chart_st, hdf]
    | some df =>
      cases hcat : colIdx df "Category" with
      | none => simp only [create_bar_chart_st, hdf, hcat]
      | some v =>
        cases hres : bcResolve df q with
        | none => simp only [create_bar_chart_st, hdf, hcat, hres]
        | some target =>
          cases huk : ukShareCol df.cols with
          | none => simp only [create_bar_chart_st, hdf, hcat, hres, huk]
          | some uk =>
            cases hal : allShareCol df.cols with
            | none => simp only [create_bar_chart_st, hdf, hcat, hres, huk, hal]
            | some al =>
              simp only [create_bar_chart_st, hdf, hcat, hres, huk, hal]
              rw [List.getElem?_set_ne (show st.length + 1 ≠ i from by omega),
                List.getElem?_append_left (by simp; omega),
                List.getElem?_append_left h]
              exact hdf
  · cases hdf : (st : List DataFrame)[i]? with
    | none => simp only [create_subset_chart_st, hdf]
    | some df =>
      cases hic : df.cols.find? (fun c => colHas "item" c) with
      | none => simp only [create_subset_chart_st, hdf, hic]
      | some ic =>
        by_cases hemp : (scFiltered df kws ic).isEmpty = true
        · simp only [create_subset_chart_st, hdf, hic, hemp, if_true]
        · have hemp2 : (scFiltered df kws ic).isEmpty = false := by simpa using hemp
          cases h1 : (if metric = "Rate" then firstCol df.cols "uk" "rate"
              else firstCol df.cols "uk" "price") with
          | none =>
            simp only [create_subset_chart_st, hdf, hic, hemp2, Bool.false_eq_true,
              if_false, h1]
          | some uk =>
            cases h2 : (if metric = "Rate" then firstCol df.cols "all" "rate"
                else firstCol df.cols "all" "price") with
            | none =>
              simp only [create_subset_chart_st, hdf, hic, hemp2, Bool.false_eq_true,
                if_false, h1, h2]
            | some al =>
              simp only [create_subset_chart_st, hdf, hic, hemp2, Bool.false_eq_true,
                if_false, h1, h2]
              rw [List.getElem?_set_ne (show st.length + 1 ≠ i from by omega),
                List.getElem?_append_left (by simp; omega),
                List.getElem?_append_left h]
              exact hdf

/-- C9 witness: on a one-slot store holding `dfSt`, both builders leave
slot 0 unchanged. -/
theorem claim_C9_witness :
    ((create_bar_chart_st [dfSt] 0 "companion").1)[0]? = ([dfSt] : Store)[0]? ∧
    ((create_subset_chart_st [dfSt] 0 ["zzz"] "Rate").1)[0]? = ([dfSt] : Store)[0]? :=
  claim_C9_no_input_mutation [dfSt] 0 "companion" ["zzz"] "Rate" (by decide)
